import Mathlib

/-!
Shallow embedding of the Neutral Fuels dispatch planner backend
(trip validation, conflict detection, weekly auto assignment), with
theorems checking the natural language specification against the code.

Conventions of the embedding:
* a Python "time" value is modelled as minutes since midnight (a Nat);
  Python compares time objects lexicographically by (hour, minute), which
  at minute granularity is exactly the order on minutes since midnight;
* a Python "date" is modelled as a Nat (days since some epoch), so
  consecutive calendar days are consecutive numbers;
* an Optional[int] foreign key is modelled as Option Nat, and the Python
  truthiness test "if x:" on such a field is modelled by pyTruthy, which
  is false both for none and for some 0;
* the SQLAlchemy session is modelled as a Db record of lists of rows;
  a query is a filter over the corresponding list, in row order;
* error messages built by string formatting are not modelled (only the
  code and field of a ValidationError are, which is what callers branch on).
-/

namespace NFDispatch

/-- Python truthiness of an Optional[int]: None and 0 are falsy. -/
def pyTruthy : Option Nat → Bool
  | none => false
  | some n => n != 0

/-- Minutes since midnight; models a Python datetime.time at minute granularity. -/
abbrev TimeOfDay := Nat

/-! ## Enumerations (models/tanker.py, models/customer.py, models/schedule.py, models/driver.py) -/

/-- Tanker delivery capability type (models/tanker.py). -/
inductive DeliveryType
  | bulk
  | mobile
  | both
deriving DecidableEq

/-- String value of a DeliveryType, as in the Python str enum. -/
def DeliveryType.value : DeliveryType → String
  | .bulk => "bulk"
  | .mobile => "mobile"
  | .both => "both"

/-- Tanker operational status (models/tanker.py). -/
inductive TankerStatus
  | active
  | maintenance
  | inactive
deriving DecidableEq

/-- String value of a TankerStatus, as in the Python str enum. -/
def TankerStatus.value : TankerStatus → String
  | .active => "active"
  | .maintenance => "maintenance"
  | .inactive => "inactive"

/-- Customer delivery type (models/customer.py). -/
inductive CustomerType
  | bulk
  | mobile
deriving DecidableEq

/-- String value of a CustomerType, as in the Python str enum. -/
def CustomerType.value : CustomerType → String
  | .bulk => "bulk"
  | .mobile => "mobile"

/-- Trip assignment status (models/schedule.py). -/
inductive TripStatus
  | scheduled
  | unassigned
  | conflict
  | completed
  | cancelled
deriving DecidableEq

/-- Driver daily availability status (models/driver.py). -/
inductive DriverStatus
  | working
  | off
  | holiday
  | float
deriving DecidableEq

/-! ## Row types -/

/-- Tanker row (models/tanker.py); fuel_blends and emirates are the id sets
reached through the tanker_blends and tanker_emirates association tables. -/
structure Tanker where
  id : Nat
  max_capacity : Int
  delivery_type : DeliveryType
  status : TankerStatus
  fuel_blends : List Nat
  emirates : List Nat
  is_active : Bool
deriving DecidableEq

/-- Tanker.supports_blend (models/tanker.py line 121). -/
def Tanker.supports_blend (k : Tanker) (blend_id : Nat) : Bool :=
  k.fuel_blends.any (fun b => b == blend_id)

/-- Tanker.covers_emirate (models/tanker.py line 125). -/
def Tanker.covers_emirate (k : Tanker) (emirate_id : Nat) : Bool :=
  k.emirates.any (fun e => e == emirate_id)

/-- Tanker.can_deliver_to_customer_type (models/tanker.py line 129);
the argument is the string value of the customer type. -/
def Tanker.can_deliver_to_customer_type (k : Tanker) (customer_type : String) : Bool :=
  if k.delivery_type = DeliveryType.both then true
  else k.delivery_type.value == customer_type

/-- Customer row (models/customer.py); only the fields the validator reads. -/
structure Customer where
  id : Nat
  customer_type : CustomerType
  emirate_id : Option Nat
deriving DecidableEq

/-- Trip row (models/schedule.py); daily_schedule_id links to the parent
DailySchedule, through which the schedule date is reached. -/
structure Trip where
  id : Nat
  daily_schedule_id : Nat
  customer_id : Nat
  tanker_id : Option Nat
  driver_id : Option Nat
  fuel_blend_id : Option Nat
  volume : Int
  start_time : TimeOfDay
  end_time : TimeOfDay
  status : TripStatus
deriving DecidableEq

/-- DailySchedule row (models/schedule.py); only the fields this core reads. -/
structure DailySchedule where
  id : Nat
  schedule_date : Nat
  is_locked : Bool
deriving DecidableEq

/-! ## Validation service (services/validation.py) -/

/-- Validation error details (services/validation.py line 14). The formatted
message string is not modelled. -/
structure ValidationError where
  code : String
  field : Option String
deriving DecidableEq

/-- Result of a validation check (services/validation.py line 23). -/
structure ValidationResult where
  is_valid : Bool
  errors : List ValidationError
  warnings : List ValidationError
deriving DecidableEq

/-- The error list built by validate_tanker_assignment
(services/validation.py lines 61 to 98).  Each Python
"if cond: errors.append(e)" becomes an appended singleton; the checks do
not short circuit.  The tests "if trip.fuel_blend_id:" and
"if customer.emirate_id:" are Python truthiness tests on Optional[int]. -/
def validationTankerErrors (trip : Trip) (tanker : Tanker) (customer : Customer) :
    List ValidationError :=
    (if tanker.max_capacity < trip.volume then
        [{ code := "INSUFFICIENT_CAPACITY", field := some "tanker_id" }]
      else [])
    ++ (if pyTruthy trip.fuel_blend_id &&
            !(tanker.supports_blend (trip.fuel_blend_id.getD 0)) then
        [{ code := "INCOMPATIBLE_FUEL_BLEND", field := some "tanker_id" }]
      else [])
    ++ (if pyTruthy customer.emirate_id &&
            !(tanker.covers_emirate (customer.emirate_id.getD 0)) then
        [{ code := "EMIRATE_NOT_COVERED", field := some "tanker_id" }]
      else [])
    ++ (if !(tanker.can_deliver_to_customer_type customer.customer_type.value) then
        [{ code := "INCOMPATIBLE_DELIVERY_TYPE", field := some "tanker_id" }]
      else [])

/-- TripValidationService.validate_tanker_assignment
(services/validation.py lines 46 to 111): gathers the four blocking
checks into errors, the status check into warnings, and is valid exactly
when the error list stayed empty. -/
def validate_tanker_assignment (trip : Trip) (tanker : Tanker) (customer : Customer) :
    ValidationResult :=
  let errors : List ValidationError := validationTankerErrors trip tanker customer
  let warnings : List ValidationError :=
    if tanker.status.value ≠ "active" then
      [{ code := "TANKER_NOT_ACTIVE", field := some "tanker_id" }]
    else []
  if errors ≠ [] then
    { is_valid := false, errors := errors, warnings := warnings }
  else
    { is_valid := true, errors := [], warnings := warnings }

/-! ## Remaining row types and the store -/

/-- Weekly recurring trip template (models/schedule.py WeeklyTemplate);
only the fields the rest gap checker reads. -/
structure WeeklyTemplate where
  id : Nat
  day_of_week : Nat
  start_time : TimeOfDay
  end_time : TimeOfDay
  is_active : Bool
deriving DecidableEq

/-- Trip group row (models/trip_group.py) together with the templates
reached through the trip_group_templates association table. -/
structure TripGroup where
  id : Nat
  name : String
  day_of_week : Nat
  is_active : Bool
  templates : List WeeklyTemplate
deriving DecidableEq

/-- Weekly driver assignment row (models/trip_group.py line 133). -/
structure WeeklyDriverAssignment where
  id : Nat
  trip_group_id : Nat
  driver_id : Nat
  week_start_date : Nat
  assigned_by : Option Nat
deriving DecidableEq

/-- Driver row (models/driver.py); only the fields the auto assigner reads. -/
structure Driver where
  id : Nat
  name : String
  is_active : Bool
deriving DecidableEq

/-- Per driver, per date availability row (models/driver.py DriverSchedule). -/
structure DriverSchedule where
  id : Nat
  driver_id : Nat
  schedule_date : Nat
  status : DriverStatus
deriving DecidableEq

/-- The entity store: one list of rows per table, in row order. -/
structure Db where
  trips : List Trip
  daily_schedules : List DailySchedule
  tankers : List Tanker
  customers : List Customer
  drivers : List Driver
  driver_schedules : List DriverSchedule
  trip_groups : List TripGroup
  weekly_driver_assignments : List WeeklyDriverAssignment
deriving DecidableEq

/-- Date of the parent daily schedule of a trip, through the join on the
daily_schedule_id foreign key. -/
def tripScheduleDate (db : Db) (tr : Trip) : Option Nat :=
  (db.daily_schedules.find? (fun s => s.id == tr.daily_schedule_id)).map
    (fun s => s.schedule_date)

/-! ## Conflict detection (services/validation.py lines 113 to 146) -/

/-- The half open overlap predicate of check_trip_conflicts line 143:
two ranges overlap iff start1 < end2 and start2 < end1. -/
def timesOverlap (start1 end1 start2 end2 : TimeOfDay) : Bool :=
  start1 < end2 && start2 < end1

/-- TripValidationService.check_trip_conflicts
(services/validation.py lines 113 to 146).  The SQL query joins Trip with
DailySchedule, filters by schedule date, tanker and non cancelled status,
and the "if exclude_trip_id:" guard is a Python truthiness test. -/
def check_trip_conflicts (db : Db) (tanker_id : Nat) (schedule_date : Nat)
    (start_time end_time : TimeOfDay) (exclude_trip_id : Option Nat) : List Trip :=
  let query := db.trips.filter (fun tr =>
    tripScheduleDate db tr == some schedule_date
    && tr.tanker_id == some tanker_id
    && tr.status != TripStatus.cancelled)
  let query := if pyTruthy exclude_trip_id then
      query.filter (fun tr => tr.id != exclude_trip_id.getD 0)
    else query
  query.filter (fun tr =>
    timesOverlap start_time end_time tr.start_time tr.end_time)

/-! ## Rest gap checker (services/auto_assignment.py lines 221 to 285) -/

/-- AutoAssignmentService._calculate_hours_between
(services/auto_assignment.py lines 264 to 285): hours from an end of day
time on day N to a start time on day N+1, as an exact rational (the Python
float division by 60.0 agrees with the exact value on every comparison
against a whole number of hours made by the caller). -/
def _calculate_hours_between (end_time start_time : TimeOfDay) : ℚ :=
  let end_minutes : Int := end_time
  let start_minutes : Int := start_time
  let gap_minutes : Int := (24 * 60 - end_minutes) + start_minutes
  Rat.divInt gap_minutes 60

/-- Active templates of a group on a given day of week: the bucket that
_check_rest_gap builds in its templates_by_day defaultdict. -/
def templatesOn (g : TripGroup) (day : Nat) : List WeeklyTemplate :=
  g.templates.filter (fun t => t.is_active && t.day_of_week == day)

/-- Latest end time of a bucket (Python max over a nonempty generator;
the 0 seed is only reached on the empty list, which the caller excludes). -/
def latestEnd (ts : List WeeklyTemplate) : TimeOfDay :=
  (ts.map (fun t => t.end_time)).foldl max 0

/-- Earliest start time of a bucket (Python min over a nonempty generator;
the 0 result on the empty list is never reached by the caller). -/
def earliestStart (ts : List WeeklyTemplate) : TimeOfDay :=
  match ts.map (fun t => t.start_time) with
  | [] => 0
  | x :: xs => xs.foldl min x

/-- AutoAssignmentService._check_rest_gap
(services/auto_assignment.py lines 221 to 262): for every consecutive day
pair (day, day+1) with day in 0..5 where both days have at least one
active template, the gap from the latest end of day to the earliest start
of day+1 must reach min_rest_hours; the Python early "return False" is the
failure of the corresponding conjunct of List.all. -/
def _check_rest_gap (group : TripGroup) (min_rest_hours : Nat) : Bool :=
  (List.range 6).all (fun day =>
    if templatesOn group day ≠ [] ∧ templatesOn group (day + 1) ≠ [] then
      if _calculate_hours_between (latestEnd (templatesOn group day))
          (earliestStart (templatesOn group (day + 1))) < (min_rest_hours : ℚ) then
        false
      else true
    else true)

/-! ## Weekly auto assignment (services/auto_assignment.py) -/

/-- Assignments already stored for a week (services/auto_assignment.py
lines 54 to 58). -/
def existingAssignments (db : Db) (week_start : Nat) : List WeeklyDriverAssignment :=
  db.weekly_driver_assignments.filter (fun a => a.week_start_date == week_start)

/-- Group ids already assigned for the week (line 59); the Python set is
modelled as the list of ids, used only through membership. -/
def alreadyAssignedGroupIds (db : Db) (week_start : Nat) : List Nat :=
  (existingAssignments db week_start).map (fun a => a.trip_group_id)

/-- Driver ids already assigned for the week (line 60). -/
def alreadyAssignedDriverIds (db : Db) (week_start : Nat) : List Nat :=
  (existingAssignments db week_start).map (fun a => a.driver_id)

/-- Active trip groups not yet assigned for the week (lines 47 to 66). -/
def unassignedGroups (db : Db) (week_start : Nat) : List TripGroup :=
  (db.trip_groups.filter (fun g => g.is_active)).filter
    (fun g => !(alreadyAssignedGroupIds db week_start).contains g.id)

/-- The seven dates of the week starting at week_start (line 69). -/
def weekDates (week_start : Nat) : List Nat :=
  (List.range 7).map (fun i => week_start + i)

/-- Lookup in the date to status dict of _get_available_drivers (line 203);
a Python dict comprehension keeps the last row for a duplicated key, hence
the find? on the reversed row list. -/
def schedLookup (ss : List DriverSchedule) (d : Nat) : Option DriverStatus :=
  (ss.reverse.find? (fun s => s.schedule_date == d)).map (fun s => s.status)

/-- AutoAssignmentService._get_available_drivers
(services/auto_assignment.py lines 174 to 219): active drivers whose
schedule status is WORKING on each of the first six dates of the week
(a missing schedule row counts as unavailable). -/
def _get_available_drivers (db : Db) (week_dates : List Nat) : List Driver :=
  (db.drivers.filter (fun d => d.is_active)).filter (fun driver =>
    let schedules := db.driver_schedules.filter (fun s =>
      s.driver_id == driver.id && week_dates.contains s.schedule_date)
    (week_dates.take 6).all (fun d =>
      schedLookup schedules d == some DriverStatus.working))

/-- The candidate driver pool of auto_assign (lines 72 to 78): drivers
working the week, minus drivers already assigned for the week. -/
def availableDrivers (db : Db) (week_start : Nat) : List Driver :=
  (_get_available_drivers db (weekDates week_start)).filter
    (fun d => !(alreadyAssignedDriverIds db week_start).contains d.id)

/-- One created assignment, live row or dry run preview: both name one
trip group and one driver. -/
structure CreatedAssignment where
  trip_group_id : Nat
  driver_id : Nat
deriving DecidableEq

/-- One entry of the unassigned list of the response
(schemas AutoAssignmentPreview with driver = None). -/
structure UnassignedPreview where
  trip_group_id : Nat
  name : String
  reason : String
deriving DecidableEq

/-- State of the assignment loop of auto_assign (lines 80 to 145). -/
structure AssignState where
  assigned_driver_ids : List Nat
  created : List CreatedAssignment
  unassigned : List UnassignedPreview
  k : Nat
deriving DecidableEq

/-- The group loop of auto_assign (lines 85 to 145).  The call
"random.choice(eligible_drivers)" is modelled by indexing with an
arbitrary stream pick of numbers, one per choice made, reduced modulo the
length of the eligible list; every behaviour of the random choice is some
pick stream.  In the empty branch the Python code initialises the reason
to "No available drivers" and then overwrites it: since that branch has
eligible empty, the first overwrite guard decides the reason and the
initial value is dead. -/
def assignLoop (available_drivers : List Driver) (min_rest_hours : Nat)
    (pick : Nat → Nat) : List TripGroup → AssignState → AssignState
  | [], st => st
  | group :: rest, st =>
    let eligible := available_drivers.filter (fun d =>
      !st.assigned_driver_ids.contains d.id && _check_rest_gap group min_rest_hours)
    if he : eligible = [] then
      let reason := if available_drivers.isEmpty then
          "All drivers are already assigned or unavailable"
        else
          "Remaining drivers do not meet rest gap requirements"
      assignLoop available_drivers min_rest_hours pick rest
        { st with unassigned := st.unassigned ++
            [{ trip_group_id := group.id, name := group.name, reason := reason }] }
    else
      let driver := eligible.getD (pick st.k % eligible.length) (eligible.head he)
      assignLoop available_drivers min_rest_hours pick rest
        { st with
          assigned_driver_ids := driver.id :: st.assigned_driver_ids,
          created := st.created ++
            [{ trip_group_id := group.id, driver_id := driver.id }],
          k := st.k + 1 }

/-- Response of auto_assign (schemas AutoAssignResponse). -/
structure AutoAssignResponse where
  week_start_date : Nat
  assignments_created : Nat
  groups_unassigned : Nat
  assignments : List CreatedAssignment
  unassigned : List UnassignedPreview
  message : String
deriving DecidableEq

/-- AutoAssignmentService.auto_assign (services/auto_assignment.py lines
27 to 172).  On a live run the created rows are added to the store (the
autoincrement id is modelled as 0, no claim reads it); on a dry run
nothing is added and nothing is committed. -/
def auto_assign (db : Db) (week_start user_id min_rest_hours : Nat)
    (dry_run : Bool) (pick : Nat → Nat) : AutoAssignResponse × Db :=
  let groups := unassignedGroups db week_start
  let available_drivers := availableDrivers db week_start
  let st0 : AssignState := {
    assigned_driver_ids := alreadyAssignedDriverIds db week_start,
    created := [], unassigned := [], k := 0 }
  let stF := assignLoop available_drivers min_rest_hours pick groups st0
  let new_rows : List WeeklyDriverAssignment :=
    if dry_run then [] else
      stF.created.map (fun c => {
        id := 0, trip_group_id := c.trip_group_id, driver_id := c.driver_id,
        week_start_date := week_start, assigned_by := some user_id })
  let db' := if dry_run then db else
    { db with weekly_driver_assignments := db.weekly_driver_assignments ++ new_rows }
  let total_groups := groups.length
  let assigned_count := stF.created.length
  let unassigned_count := stF.unassigned.length
  let message := if assigned_count = total_groups then
      s!"Successfully assigned all {assigned_count} trip groups"
    else if assigned_count > 0 then
      s!"Assigned {assigned_count} of {total_groups} groups. {unassigned_count} groups could not be assigned."
    else
      "No groups could be assigned - check driver availability and schedules"
  let message := if dry_run then s!"[DRY RUN] {message}" else message
  ({ week_start_date := week_start,
     assignments_created := assigned_count,
     groups_unassigned := unassigned_count,
     assignments := stF.created,
     unassigned := stF.unassigned,
     message := message }, db')

/-! ## Single trip assignment endpoint (api/v1/schedules.py lines 377 to 445) -/

/-- Body of the assign endpoint (schemas TripAssignment). -/
structure TripAssignment where
  tanker_id : Option Nat
  driver_id : Option Nat
deriving DecidableEq

/-- Replace the trip with the given id in the store (the ORM mutates the
one loaded row; under primary key uniqueness exactly one row matches). -/
def updateTrip (db : Db) (trip_id : Nat) (f : Trip → Trip) : Db :=
  { db with trips := db.trips.map (fun t => if t.id == trip_id then f t else t) }

/-- The assign_trip endpoint (api/v1/schedules.py lines 377 to 445).
Raised HTTPExceptions are modelled as Except.error; the store is returned
only on the success path, so an error leaves the store untouched.  The
branch for a missing daily schedule row is unreachable under foreign key
integrity, and the branch for a missing customer models the attribute
error the Python code would raise on a None customer: in both cases the
code raises before any mutation. -/
def assign_trip (db : Db) (trip_id : Nat) (assignment : TripAssignment) :
    Except String Db :=
  match db.trips.find? (fun t => t.id == trip_id) with
  | none => .error "Trip not found"
  | some trip =>
    match db.daily_schedules.find? (fun s => s.id == trip.daily_schedule_id) with
    | none => .error "missing daily schedule row"
    | some sched =>
      if sched.is_locked then .error "Schedule is locked"
      else
        match assignment.tanker_id with
        | some tanker_id =>
          match db.tankers.find? (fun k => k.id == tanker_id) with
          | none => .error "Tanker not found"
          | some tanker =>
            match db.customers.find? (fun c => c.id == trip.customer_id) with
            | none => .error "customer lookup failed"
            | some customer =>
              let result := validate_tanker_assignment trip tanker customer
              if !result.is_valid then .error "validation errors"
              else
                let conflicts := check_trip_conflicts db tanker_id
                  sched.schedule_date trip.start_time trip.end_time (some trip_id)
                if conflicts ≠ [] then .error "Tanker has conflicting trips"
                else
                  .ok (updateTrip db trip_id (fun t =>
                    let t2 := { t with
                      tanker_id := some tanker_id,
                      status := TripStatus.scheduled }
                    match assignment.driver_id with
                    | some d => { t2 with driver_id := some d }
                    | none => t2))
        | none =>
          .ok (updateTrip db trip_id (fun t =>
            match assignment.driver_id with
            | some d => { t with driver_id := some d }
            | none => t))

/-! ## Specification side predicates

These definitions follow the words of the specification, to be compared
with the code side definitions above. -/

/-- Specification wording of the capacity check: tanker capacity at least
the trip volume. -/
def specCapacityOK (t : Trip) (k : Tanker) : Bool :=
  decide (t.volume ≤ k.max_capacity)

/-- Specification wording of the blend check: the required fuel blend is
unset, or the tanker supports it. -/
def specBlendOK (t : Trip) (k : Tanker) : Bool :=
  match t.fuel_blend_id with
  | none => true
  | some b => k.supports_blend b

/-- Specification wording of the region check: the customer emirate is
unset, or the tanker covers it. -/
def specEmirateOK (c : Customer) (k : Tanker) : Bool :=
  match c.emirate_id with
  | none => true
  | some e => k.covers_emirate e

/-- Specification wording of the delivery type check: the tanker delivery
type matches the customer type, with both always matching. -/
def specDeliveryOK (c : Customer) (k : Tanker) : Bool :=
  k.can_deliver_to_customer_type c.customer_type.value

/-- Specification side filter predicate of the conflict detector: a non
cancelled trip of the tanker on the date, not the excluded id, whose
range overlaps the queried range. -/
def specConflicting (db : Db) (tanker_id schedule_date : Nat)
    (start_time end_time : TimeOfDay) (exclude_trip_id : Option Nat)
    (tr : Trip) : Bool :=
  tripScheduleDate db tr == some schedule_date
  && tr.tanker_id == some tanker_id
  && tr.status != TripStatus.cancelled
  && (match exclude_trip_id with
      | some e => tr.id != e
      | none => true)
  && timesOverlap start_time end_time tr.start_time tr.end_time

/-! ## Concrete example inputs for witnesses and counterexamples -/

/-- A trip used in concrete scenarios: volume 100, 09:00 to 10:00,
no required blend, customer 3, parent schedule 1. -/
def exTrip : Trip :=
  { id := 1, daily_schedule_id := 1, customer_id := 3, tanker_id := none,
    driver_id := none, fuel_blend_id := none, volume := 100,
    start_time := 540, end_time := 600, status := TripStatus.unassigned }

/-- A bulk capable active tanker of capacity 1000 covering emirate 2 and
supporting blend 5. -/
def exTanker : Tanker :=
  { id := 7, max_capacity := 1000, delivery_type := DeliveryType.both,
    status := TankerStatus.active, fuel_blends := [5], emirates := [2],
    is_active := true }

/-- A bulk customer in emirate 2. -/
def exCustomer : Customer :=
  { id := 3, customer_type := CustomerType.bulk, emirate_id := some 2 }

/-- A completed trip of tanker 1 on the schedule dated 100, 09:00 to
10:00. -/
def exCompletedTrip : Trip :=
  { id := 1, daily_schedule_id := 1, customer_id := 3, tanker_id := some 1,
    driver_id := none, fuel_blend_id := none, volume := 100,
    start_time := 540, end_time := 600, status := TripStatus.completed }

/-- A store holding only the completed trip and its daily schedule. -/
def exDbCompleted : Db :=
  { trips := [exCompletedTrip],
    daily_schedules := [{ id := 1, schedule_date := 100, is_locked := false }],
    tankers := [], customers := [], drivers := [], driver_schedules := [],
    trip_groups := [], weekly_driver_assignments := [] }

/-- The rest gap example group of the specification: a day 0 template
ending 22:00 and a day 1 template starting 06:00, both active. -/
def exampleGroup : TripGroup :=
  { id := 1, name := "A", day_of_week := 0, is_active := true,
    templates :=
      [ { id := 1, day_of_week := 0, start_time := 480, end_time := 1320,
          is_active := true },
        { id := 2, day_of_week := 1, start_time := 360, end_time := 840,
          is_active := true } ] }

/-- A group whose active templates all sit on day 2. -/
def exSingleDayGroup : TripGroup :=
  { id := 2, name := "B", day_of_week := 2, is_active := true,
    templates :=
      [ { id := 3, day_of_week := 2, start_time := 480, end_time := 720,
          is_active := true },
        { id := 4, day_of_week := 2, start_time := 780, end_time := 1020,
          is_active := true } ] }

/-- A store with one active trip group and no drivers at all: the
candidate driver pool of any week is empty. -/
def exDbNoDrivers : Db :=
  { trips := [], daily_schedules := [], tankers := [], customers := [],
    drivers := [], driver_schedules := [],
    trip_groups := [exampleGroup], weekly_driver_assignments := [] }

/-- The unassigned record produced for the example group when the pool is
empty. -/
def exNoDriverPreview : UnassignedPreview :=
  { trip_group_id := 1, name := "A",
    reason := "All drivers are already assigned or unavailable" }

/-- A store with two active single day groups and two drivers working the
whole week starting at date 100. -/
def exDbAuto : Db :=
  { trips := [], daily_schedules := [], tankers := [], customers := [],
    drivers := [ { id := 1, name := "d1", is_active := true },
                 { id := 2, name := "d2", is_active := true } ],
    driver_schedules :=
      (List.range 7).flatMap (fun i =>
        [ { id := 10 + i, driver_id := 1, schedule_date := 100 + i,
            status := DriverStatus.working },
          { id := 20 + i, driver_id := 2, schedule_date := 100 + i,
            status := DriverStatus.working } ]),
    trip_groups := [exSingleDayGroup,
      { id := 3, name := "C", day_of_week := 4, is_active := true,
        templates := [ { id := 5, day_of_week := 4, start_time := 480,
                         end_time := 720, is_active := true } ] }],
    weekly_driver_assignments := [] }

/-- A store on which assign_trip succeeds: one unassigned trip, an
unlocked schedule, a compatible tanker and its customer. -/
def exDbAssign : Db :=
  { trips := [exTrip],
    daily_schedules := [{ id := 1, schedule_date := 100, is_locked := false }],
    tankers := [exTanker], customers := [exCustomer],
    drivers := [], driver_schedules := [], trip_groups := [],
    weekly_driver_assignments := [] }

/-! ## Helper lemmas on the validator -/

theorem validate_errors_field (t : Trip) (k : Tanker) (c : Customer) :
    (validate_tanker_assignment t k c).errors = validationTankerErrors t k c := by
  unfold validate_tanker_assignment
  by_cases h : validationTankerErrors t k c = [] <;> simp [h]

theorem validate_is_valid_field (t : Trip) (k : Tanker) (c : Customer) :
    (validate_tanker_assignment t k c).is_valid
      = (validationTankerErrors t k c).isEmpty := by
  unfold validate_tanker_assignment
  by_cases h : validationTankerErrors t k c = [] <;> simp [h, List.isEmpty_iff]

theorem validate_warnings_field (t : Trip) (k : Tanker) (c : Customer) :
    (validate_tanker_assignment t k c).warnings
      = if k.status = TankerStatus.active then []
        else [{ code := "TANKER_NOT_ACTIVE", field := some "tanker_id" }] := by
  unfold validate_tanker_assignment
  by_cases h : validationTankerErrors t k c = [] <;>
    cases hk : k.status <;>
    simp [h, hk, TankerStatus.value]

theorem validationTankerErrors_spec (t : Trip) (k : Tanker) (c : Customer)
    (hb : t.fuel_blend_id ≠ some 0) (he : c.emirate_id ≠ some 0) :
    validationTankerErrors t k c =
      (if specCapacityOK t k then []
        else [{ code := "INSUFFICIENT_CAPACITY", field := some "tanker_id" }])
      ++ (if specBlendOK t k then []
        else [{ code := "INCOMPATIBLE_FUEL_BLEND", field := some "tanker_id" }])
      ++ (if specEmirateOK c k then []
        else [{ code := "EMIRATE_NOT_COVERED", field := some "tanker_id" }])
      ++ (if specDeliveryOK c k then []
        else [{ code := "INCOMPATIBLE_DELIVERY_TYPE", field := some "tanker_id" }]) := by
  have h1 : (if k.max_capacity < t.volume then
        [({ code := "INSUFFICIENT_CAPACITY", field := some "tanker_id" } : ValidationError)]
      else [])
      = (if specCapacityOK t k then []
        else [{ code := "INSUFFICIENT_CAPACITY", field := some "tanker_id" }]) := by
    by_cases h : k.max_capacity < t.volume
    · have hn : ¬ t.volume ≤ k.max_capacity := not_le.mpr h
      simp [specCapacityOK, h, hn]
    · have hy : t.volume ≤ k.max_capacity := not_lt.mp h
      simp [specCapacityOK, h, hy]
  have h2 : (if pyTruthy t.fuel_blend_id &&
        !(k.supports_blend (t.fuel_blend_id.getD 0)) then
        [({ code := "INCOMPATIBLE_FUEL_BLEND", field := some "tanker_id" } : ValidationError)]
      else [])
      = (if specBlendOK t k then []
        else [{ code := "INCOMPATIBLE_FUEL_BLEND", field := some "tanker_id" }]) := by
    rcases hfb : t.fuel_blend_id with _ | b
    · simp [pyTruthy, specBlendOK, hfb]
    · have hb0 : b ≠ 0 := by
        intro h0
        exact hb (by simp [hfb, h0])
      cases hs : k.supports_blend b <;>
        simp [pyTruthy, specBlendOK, hfb, hb0, hs]
  have h3 : (if pyTruthy c.emirate_id &&
        !(k.covers_emirate (c.emirate_id.getD 0)) then
        [({ code := "EMIRATE_NOT_COVERED", field := some "tanker_id" } : ValidationError)]
      else [])
      = (if specEmirateOK c k then []
        else [{ code := "EMIRATE_NOT_COVERED", field := some "tanker_id" }]) := by
    rcases hem : c.emirate_id with _ | e
    · simp [pyTruthy, specEmirateOK, hem]
    · have he0 : e ≠ 0 := by
        intro h0
        exact he (by simp [hem, h0])
      cases hs : k.covers_emirate e <;>
        simp [pyTruthy, specEmirateOK, hem, he0, hs]
  have h4 : (if !(k.can_deliver_to_customer_type c.customer_type.value) then
        [({ code := "INCOMPATIBLE_DELIVERY_TYPE", field := some "tanker_id" } : ValidationError)]
      else [])
      = (if specDeliveryOK c k then []
        else [{ code := "INCOMPATIBLE_DELIVERY_TYPE", field := some "tanker_id" }]) := by
    cases hd : k.can_deliver_to_customer_type c.customer_type.value <;>
      simp [specDeliveryOK, hd]
  unfold validationTankerErrors
  rw [h1, h2, h3, h4]

theorem validationTankerErrors_status (t : Trip) (k : Tanker) (c : Customer)
    (s : TankerStatus) :
    validationTankerErrors t { k with status := s } c
      = validationTankerErrors t k c := rfl

/-- C1: the validator accepts exactly when capacity, blend, emirate and
delivery type checks all pass; the tanker status only contributes the
TANKER_NOT_ACTIVE warning and never affects validity; the checks do not
short circuit, so the error list has one entry, with the documented code,
per violated check.  The id hypotheses reflect that foreign keys in the
store are positive, so the Python truthiness tests of the code coincide
with the unset tests of the specification. -/
theorem C1_validate_tanker_assignment_characterization
    (t : Trip) (k : Tanker) (c : Customer)
    (hb : t.fuel_blend_id ≠ some 0) (he : c.emirate_id ≠ some 0) :
    ((validate_tanker_assignment t k c).is_valid
        = (specCapacityOK t k && specBlendOK t k && specEmirateOK c k
            && specDeliveryOK c k))
    ∧ (∀ s, (validate_tanker_assignment t { k with status := s } c).is_valid
        = (validate_tanker_assignment t k c).is_valid)
    ∧ ((validate_tanker_assignment t k c).warnings
        = if k.status = TankerStatus.active then []
          else [{ code := "TANKER_NOT_ACTIVE", field := some "tanker_id" }])
    ∧ (({ code := "INSUFFICIENT_CAPACITY", field := some "tanker_id" } : ValidationError)
        ∈ (validate_tanker_assignment t k c).errors ↔ specCapacityOK t k = false)
    ∧ (({ code := "INCOMPATIBLE_FUEL_BLEND", field := some "tanker_id" } : ValidationError)
        ∈ (validate_tanker_assignment t k c).errors ↔ specBlendOK t k = false)
    ∧ (({ code := "EMIRATE_NOT_COVERED", field := some "tanker_id" } : ValidationError)
        ∈ (validate_tanker_assignment t k c).errors ↔ specEmirateOK c k = false)
    ∧ (({ code := "INCOMPATIBLE_DELIVERY_TYPE", field := some "tanker_id" } : ValidationError)
        ∈ (validate_tanker_assignment t k c).errors ↔ specDeliveryOK c k = false)
    ∧ ((validate_tanker_assignment t k c).errors.length
        = (if specCapacityOK t k then 0 else 1)
          + (if specBlendOK t k then 0 else 1)
          + (if specEmirateOK c k then 0 else 1)
          + (if specDeliveryOK c k then 0 else 1)) := by
  have herr := validationTankerErrors_spec t k c hb he
  refine ⟨?_, ?_, validate_warnings_field t k c, ?_, ?_, ?_, ?_, ?_⟩ <;>
    [skip;
     (intro s
      rw [validate_is_valid_field, validate_is_valid_field,
        validationTankerErrors_status]);
     skip; skip; skip; skip; skip] <;>
    simp only [validate_is_valid_field, validate_errors_field, herr] <;>
    cases hA : specCapacityOK t k <;> cases hB : specBlendOK t k <;>
    cases hC : specEmirateOK c k <;> cases hD : specDeliveryOK c k <;>
    simp

/-- Witness for C1 at a concrete compatible trip, tanker and customer. -/
theorem C1_witness :
    (exTrip.fuel_blend_id ≠ some 0 ∧ exCustomer.emirate_id ≠ some 0)
    ∧ ((validate_tanker_assignment exTrip exTanker exCustomer).is_valid
        = (specCapacityOK exTrip exTanker && specBlendOK exTrip exTanker
            && specEmirateOK exCustomer exTanker
            && specDeliveryOK exCustomer exTanker)) :=
  ⟨⟨by decide, by decide⟩,
    (C1_validate_tanker_assignment_characterization exTrip exTanker exCustomer
      (by decide) (by decide)).1⟩

/-! ## Conflict detection lemmas and claims C2, C6 -/

theorem check_trip_conflicts_eq_filter (db : Db) (tanker_id schedule_date : Nat)
    (s e : TimeOfDay) (ex : Option Nat) (hx : ex ≠ some 0) :
    check_trip_conflicts db tanker_id schedule_date s e ex
      = db.trips.filter (specConflicting db tanker_id schedule_date s e ex) := by
  unfold check_trip_conflicts
  rcases ex with _ | n
  · simp only [pyTruthy, Bool.false_eq_true, if_false]
    rw [List.filter_filter]
    apply List.filter_congr
    intro tr _
    unfold specConflicting
    cases h1 : (tripScheduleDate db tr == some schedule_date) <;>
      cases h2 : (tr.tanker_id == some tanker_id) <;>
      cases h3 : (tr.status != TripStatus.cancelled) <;>
      cases h4 : timesOverlap s e tr.start_time tr.end_time <;>
      simp [h1, h2, h3, h4]
  · have hn : (n != 0) = true := by
      simp only [bne_iff_ne, ne_eq]
      intro h0
      exact hx (by simp [h0])
    simp only [pyTruthy, hn, if_true, Option.getD_some]
    rw [List.filter_filter, List.filter_filter]
    apply List.filter_congr
    intro tr _
    unfold specConflicting
    cases h1 : (tripScheduleDate db tr == some schedule_date) <;>
      cases h2 : (tr.tanker_id == some tanker_id) <;>
      cases h3 : (tr.status != TripStatus.cancelled) <;>
      cases h4 : (tr.id != n) <;>
      cases h5 : timesOverlap s e tr.start_time tr.end_time <;>
      simp [h1, h2, h3, h4, h5]

/-- C2: the conflict detector returns exactly the non cancelled trips of
the tanker on the date, minus the excluded id, whose range strictly
overlaps the queried half open range; the overlap predicate is symmetric;
ranges that merely touch at a boundary (here 09:00 to 10:00 against 10:00
to 11:00, in minutes) do not conflict, while 09:00 to 10:01 against 10:00
to 11:00 do.  The hypothesis reflects that trip ids in the store are
positive, so the Python truthiness guard on exclude_trip_id coincides
with the presence test of the specification. -/
theorem C2_check_trip_conflicts_characterization (db : Db)
    (tanker_id schedule_date : Nat) (s e : TimeOfDay) (ex : Option Nat)
    (hx : ex ≠ some 0) :
    (check_trip_conflicts db tanker_id schedule_date s e ex
      = db.trips.filter (specConflicting db tanker_id schedule_date s e ex))
    ∧ (∀ s1 e1 s2 e2 : TimeOfDay,
        timesOverlap s1 e1 s2 e2 = timesOverlap s2 e2 s1 e1)
    ∧ timesOverlap 540 600 600 660 = false
    ∧ timesOverlap 540 601 600 660 = true := by
  refine ⟨check_trip_conflicts_eq_filter db tanker_id schedule_date s e ex hx,
    ?_, by decide, by decide⟩
  intro s1 e1 s2 e2
  simp [timesOverlap, Bool.and_comm]

/-- Witness for C2 with no excluded trip id on the concrete store. -/
theorem C2_witness :
    ((none : Option Nat) ≠ some 0)
    ∧ (check_trip_conflicts exDbCompleted 1 100 540 600 none
        = exDbCompleted.trips.filter (specConflicting exDbCompleted 1 100 540 600 none)) :=
  ⟨by decide,
    (C2_check_trip_conflicts_characterization exDbCompleted 1 100 540 600 none
      (by decide)).1⟩

/-- Counterexample to C6: a COMPLETED trip of the tanker on the date with
an overlapping range is returned by check_trip_conflicts. -/
theorem C6_counterexample :
    exCompletedTrip ∈ check_trip_conflicts exDbCompleted 1 100 540 600 none
    ∧ exCompletedTrip.status = TripStatus.completed := by
  decide

/-- C6 amended: only CANCELLED trips are excluded from conflict
aggregation; a COMPLETED trip of that tanker on that date whose range
overlaps is still reported as a conflict. -/
theorem C6_amended_conflict_status (db : Db) (tanker_id dt : Nat)
    (s e : TimeOfDay) (ex : Option Nat) (hx : ex ≠ some 0) :
    (∀ tr ∈ check_trip_conflicts db tanker_id dt s e ex,
      tr.status ≠ TripStatus.cancelled)
    ∧ (∀ tr ∈ db.trips, tr.status = TripStatus.completed →
        tripScheduleDate db tr = some dt →
        tr.tanker_id = some tanker_id →
        (∀ x, ex = some x → tr.id ≠ x) →
        timesOverlap s e tr.start_time tr.end_time = true →
        tr ∈ check_trip_conflicts db tanker_id dt s e ex) := by
  rw [check_trip_conflicts_eq_filter db tanker_id dt s e ex hx]
  constructor
  · intro tr htr
    rw [List.mem_filter] at htr
    have hp := htr.2
    unfold specConflicting at hp
    simp only [Bool.and_eq_true, bne_iff_ne, ne_eq] at hp
    exact hp.1.1.2
  · intro tr htr hcomp hdate htank hexcl hover
    rw [List.mem_filter]
    refine ⟨htr, ?_⟩
    unfold specConflicting
    rcases ex with _ | x
    · simp [hdate, htank, hcomp, hover]
    · have hid := hexcl x rfl
      simp [hdate, htank, hcomp, hover, hid]

/-- Witness for C6 amended: the completed trip in the concrete store is
not cancelled, and is reported. -/
theorem C6_witness :
    exCompletedTrip.status ≠ TripStatus.cancelled
    ∧ exCompletedTrip ∈ check_trip_conflicts exDbCompleted 1 100 540 600 none :=
  ⟨(C6_amended_conflict_status exDbCompleted 1 100 540 600 none (by decide)).1
      exCompletedTrip (by decide),
    (C6_amended_conflict_status exDbCompleted 1 100 540 600 none (by decide)).2
      exCompletedTrip (by decide) (by decide) (by decide) (by decide)
      (fun x hx => by simp at hx) (by decide)⟩

/-! ## Rest gap claims C3, C9 -/

/-- C3: the rest gap check fails exactly when some pair of consecutive
days d, d+1 with d in 0..5 both carry an active template and the gap
(24h minus the latest end of day d, plus the earliest start of day d+1)
is strictly below the minimum; groups with templates on a single day or
only non adjacent days always pass; and on the concrete example group
(day 0 ending 22:00, day 1 starting 06:00, gap 8 hours) the check fails
for 12 hours and passes for 6 hours. -/
theorem C3_check_rest_gap_characterization (g : TripGroup) (m : Nat) :
    (_check_rest_gap g m = false ↔
      ∃ d, d < 6 ∧ templatesOn g d ≠ [] ∧ templatesOn g (d + 1) ≠ [] ∧
        ((((24 * 60 : Int) - (latestEnd (templatesOn g d) : Int)
            + (earliestStart (templatesOn g (d + 1)) : Int)) : ℚ) / 60 < (m : ℚ)))
    ∧ ((∀ d, d < 6 → templatesOn g d = [] ∨ templatesOn g (d + 1) = []) →
        _check_rest_gap g m = true)
    ∧ _check_rest_gap exampleGroup 12 = false
    ∧ _check_rest_gap exampleGroup 6 = true := by
  have hform : ∀ a b : TimeOfDay, _calculate_hours_between a b
      = ((((24 * 60 : Int) - (a : Int) + (b : Int)) : ℚ) / 60) := by
    intro a b
    unfold _calculate_hours_between
    rw [Rat.divInt_eq_div]
    norm_num
  constructor
  · unfold _check_rest_gap
    rw [List.all_eq_false]
    constructor
    · rintro ⟨d, hd, hp⟩
      rw [List.mem_range] at hd
      by_cases h1 : templatesOn g d ≠ [] ∧ templatesOn g (d + 1) ≠ []
      · refine ⟨d, hd, h1.1, h1.2, ?_⟩
        by_cases h2 : _calculate_hours_between (latestEnd (templatesOn g d))
            (earliestStart (templatesOn g (d + 1))) < (m : ℚ)
        · rw [hform] at h2
          exact h2
        · simp [h1, h2] at hp
      · simp [h1] at hp
    · rintro ⟨d, hd, h1, h2, hlt⟩
      refine ⟨d, List.mem_range.mpr hd, ?_⟩
      rw [← hform] at hlt
      simp [h1, h2, hlt]
  refine ⟨?_, by decide, by decide⟩
  intro hall
  unfold _check_rest_gap
  rw [List.all_eq_true]
  intro d hd
  rw [List.mem_range] at hd
  rcases hall d hd with h | h <;> simp [h]

/-- C9: for a group whose active templates all share one day of week, the
rest gap check holds for every minimum, so the rest gap filter inside the
eligibility computation of auto_assign removes no driver for that group. -/
theorem C9_single_day_group_rest_gap (g : TripGroup) (D : Nat)
    (h : ∀ t ∈ g.templates, t.is_active = true → t.day_of_week = D)
    (m : Nat) (avail : List Driver) (assigned : List Nat) :
    _check_rest_gap g m = true
    ∧ avail.filter (fun d => !assigned.contains d.id && _check_rest_gap g m)
        = avail.filter (fun d => !assigned.contains d.id) := by
  have hkey : ∀ day, templatesOn g day ≠ [] → day = D := by
    intro day hne
    obtain ⟨t, ht⟩ := List.exists_mem_of_ne_nil _ hne
    rw [templatesOn, List.mem_filter] at ht
    have h2 := ht.2
    simp only [Bool.and_eq_true, beq_iff_eq] at h2
    have := h t ht.1 h2.1
    omega
  have hgap : _check_rest_gap g m = true := by
    unfold _check_rest_gap
    rw [List.all_eq_true]
    intro d hd
    by_cases h1 : templatesOn g d ≠ [] ∧ templatesOn g (d + 1) ≠ []
    · exfalso
      have ha := hkey d h1.1
      have hb := hkey (d + 1) h1.2
      omega
    · simp [h1]
  exact ⟨hgap, by simp [hgap]⟩

/-- Witness for C9 on the concrete single day group. -/
theorem C9_witness :
    (∀ t ∈ exSingleDayGroup.templates, t.is_active = true → t.day_of_week = 2)
    ∧ _check_rest_gap exSingleDayGroup 12 = true :=
  ⟨by decide,
    (C9_single_day_group_rest_gap exSingleDayGroup 2 (by decide) 12 [] []).1⟩

/-! ## Candidate driver pool, claim C8 -/

theorem weekDates_take6 (w : Nat) :
    (weekDates w).take 6 = (List.range 6).map (fun i => w + i) := by
  unfold weekDates
  rw [← List.map_take, List.take_range]
  norm_num

theorem schedLookup_eq_some_working (ss : List DriverSchedule) (d : Nat)
    (hfun : ∀ s1 ∈ ss, ∀ s2 ∈ ss, s1.schedule_date = s2.schedule_date → s1 = s2) :
    schedLookup ss d = some DriverStatus.working ↔
      ∃ s ∈ ss, s.schedule_date = d ∧ s.status = DriverStatus.working := by
  unfold schedLookup
  constructor
  · intro h
    rcases hf : ss.reverse.find? (fun s => s.schedule_date == d) with _ | y
    · rw [hf] at h
      exact absurd h (by simp)
    · rw [hf] at h
      have hst : y.status = DriverStatus.working := by
        simpa using h
      have hy1 := List.find?_some hf
      have hy2 := List.mem_of_find?_eq_some hf
      rw [List.mem_reverse] at hy2
      exact ⟨y, hy2, by simpa using hy1, hst⟩
  · rintro ⟨s, hs, hdate, hstatus⟩
    rcases hf : ss.reverse.find? (fun s => s.schedule_date == d) with _ | y
    · exfalso
      rw [List.find?_eq_none] at hf
      exact hf s (List.mem_reverse.mpr hs) (by simp [hdate])
    · have hy1 := List.find?_some hf
      have hy2 := List.mem_of_find?_eq_some hf
      rw [List.mem_reverse] at hy2
      simp only [beq_iff_eq] at hy1
      have hys : y = s := hfun y hy2 s hs (by rw [hy1, hdate])
      rw [hf]
      simp [hys, hstatus]

/-- C8: the candidate pool of auto_assign holds exactly the active
drivers with a WORKING schedule row on each of the first six days of the
week, minus drivers already holding an assignment row for the week.  The
hypothesis is the database uniqueness of one schedule row per driver and
date, under which the last-row-wins dict of the code is the lookup of
the specification. -/
theorem C8_candidate_pool_characterization (db : Db) (week_start : Nat)
    (d : Driver)
    (hfun : ∀ s1 ∈ db.driver_schedules, ∀ s2 ∈ db.driver_schedules,
      s1.driver_id = s2.driver_id → s1.schedule_date = s2.schedule_date → s1 = s2) :
    d ∈ availableDrivers db week_start ↔
      d ∈ db.drivers ∧ d.is_active = true
      ∧ (∀ i, i < 6 → ∃ s ∈ db.driver_schedules,
          s.driver_id = d.id ∧ s.schedule_date = week_start + i
            ∧ s.status = DriverStatus.working)
      ∧ (∀ a ∈ db.weekly_driver_assignments,
          a.week_start_date = week_start → a.driver_id ≠ d.id) := by
  unfold availableDrivers _get_available_drivers
  rw [List.mem_filter, List.mem_filter, List.mem_filter]
  have hlast : ((!(alreadyAssignedDriverIds db week_start).contains d.id) = true)
      ↔ (∀ a ∈ db.weekly_driver_assignments,
          a.week_start_date = week_start → a.driver_id ≠ d.id) := by
    have hnotmem : ((!(alreadyAssignedDriverIds db week_start).contains d.id) = true)
        ↔ d.id ∉ alreadyAssignedDriverIds db week_start := by
      simp
    rw [hnotmem]
    unfold alreadyAssignedDriverIds existingAssignments
    simp only [List.mem_map, List.mem_filter, beq_iff_eq, not_exists, not_and]
    constructor
    · intro h a ha hw hid
      exact h a ⟨ha, hw⟩ hid
    · intro h a ha hid
      exact h a ha.1 ha.2 hid
  have hwork : (((weekDates week_start).take 6).all (fun dt =>
        schedLookup (db.driver_schedules.filter (fun s =>
          s.driver_id == d.id && (weekDates week_start).contains s.schedule_date)) dt
          == some DriverStatus.working) = true)
      ↔ (∀ i, i < 6 → ∃ s ∈ db.driver_schedules,
          s.driver_id = d.id ∧ s.schedule_date = week_start + i
            ∧ s.status = DriverStatus.working) := by
    rw [List.all_eq_true, weekDates_take6]
    have hfun2 : ∀ s1 ∈ db.driver_schedules.filter (fun s =>
          s.driver_id == d.id && (weekDates week_start).contains s.schedule_date),
        ∀ s2 ∈ db.driver_schedules.filter (fun s =>
          s.driver_id == d.id && (weekDates week_start).contains s.schedule_date),
        s1.schedule_date = s2.schedule_date → s1 = s2 := by
      intro s1 h1 s2 h2 hd12
      rw [List.mem_filter] at h1 h2
      have e1 : s1.driver_id = d.id := by
        have := h1.2
        simp only [Bool.and_eq_true, beq_iff_eq] at this
        exact this.1
      have e2 : s2.driver_id = d.id := by
        have := h2.2
        simp only [Bool.and_eq_true, beq_iff_eq] at this
        exact this.1
      exact hfun s1 h1.1 s2 h2.1 (by rw [e1, e2]) hd12
    constructor
    · intro h i hi
      have hm : week_start + i ∈ (List.range 6).map (fun j => week_start + j) :=
        List.mem_map.mpr ⟨i, List.mem_range.mpr hi, rfl⟩
      have := h _ hm
      rw [beq_iff_eq, schedLookup_eq_some_working _ _ hfun2] at this
      obtain ⟨s, hs, hdate, hstatus⟩ := this
      rw [List.mem_filter] at hs
      exact ⟨s, hs.1, by
        have := hs.2
        simp only [Bool.and_eq_true, beq_iff_eq] at this
        exact this.1, hdate, hstatus⟩
    · intro h x hx
      obtain ⟨i, hi, rfl⟩ := List.mem_map.mp hx
      rw [List.mem_range] at hi
      obtain ⟨s, hs, hid, hdate, hstatus⟩ := h i hi
      rw [beq_iff_eq, schedLookup_eq_some_working _ _ hfun2]
      refine ⟨s, ?_, hdate, hstatus⟩
      rw [List.mem_filter]
      refine ⟨hs, ?_⟩
      simp only [Bool.and_eq_true, beq_iff_eq]
      refine ⟨hid, ?_⟩
      have hmem : s.schedule_date ∈ weekDates week_start := by
        unfold weekDates
        exact List.mem_map.mpr ⟨i, List.mem_range.mpr (by omega), hdate.symm⟩
      simpa using hmem
  rw [hlast, hwork]
  tauto

/-- Witness for C8: driver 1 of the concrete store, which works the whole
week starting at date 100. -/
theorem C8_witness :
    (∀ s1 ∈ exDbAuto.driver_schedules, ∀ s2 ∈ exDbAuto.driver_schedules,
      s1.driver_id = s2.driver_id → s1.schedule_date = s2.schedule_date → s1 = s2)
    ∧ (({ id := 1, name := "d1", is_active := true } : Driver)
        ∈ availableDrivers exDbAuto 100 ↔
      ({ id := 1, name := "d1", is_active := true } : Driver) ∈ exDbAuto.drivers
      ∧ (true : Bool) = true
      ∧ (∀ i, i < 6 → ∃ s ∈ exDbAuto.driver_schedules,
          s.driver_id = 1 ∧ s.schedule_date = 100 + i
            ∧ s.status = DriverStatus.working)
      ∧ (∀ a ∈ exDbAuto.weekly_driver_assignments,
          a.week_start_date = 100 → a.driver_id ≠ 1)) :=
  ⟨by decide,
    C8_candidate_pool_characterization exDbAuto 100
      { id := 1, name := "d1", is_active := true } (by decide)⟩

/-! ## Auto assignment loop lemmas -/

theorem getD_mem {α : Type} (l : List α) (n : Nat) (d : α) (hd : d ∈ l) :
    l.getD n d ∈ l := by
  rw [List.getD_eq_getElem?_getD]
  rcases h : l[n]? with _ | x
  · simpa using hd
  · have hm := List.getElem?_mem h
    simpa using hm

/-- The driver chosen for a group is a member of the eligible list. -/
theorem assignLoop_choice_mem (eligible : List Driver) (n : Nat)
    (he : eligible ≠ []) :
    eligible.getD n (eligible.head he) ∈ eligible :=
  getD_mem eligible n (eligible.head he) (List.head_mem he)

theorem auto_assign_assignments (db : Db) (w u m : Nat) (dry : Bool)
    (pick : Nat → Nat) :
    (auto_assign db w u m dry pick).1.assignments
      = (assignLoop (availableDrivers db w) m pick (unassignedGroups db w)
          { assigned_driver_ids := alreadyAssignedDriverIds db w,
            created := [], unassigned := [], k := 0 }).created := rfl

theorem auto_assign_unassigned (db : Db) (w u m : Nat) (dry : Bool)
    (pick : Nat → Nat) :
    (auto_assign db w u m dry pick).1.unassigned
      = (assignLoop (availableDrivers db w) m pick (unassignedGroups db w)
          { assigned_driver_ids := alreadyAssignedDriverIds db w,
            created := [], unassigned := [], k := 0 }).unassigned := rfl

theorem auto_assign_db_live_rows (db : Db) (w u m : Nat) (pick : Nat → Nat) :
    (auto_assign db w u m false pick).2.weekly_driver_assignments
      = db.weekly_driver_assignments
        ++ (assignLoop (availableDrivers db w) m pick (unassignedGroups db w)
            { assigned_driver_ids := alreadyAssignedDriverIds db w,
              created := [], unassigned := [], k := 0 }).created.map
          (fun c => { id := 0, trip_group_id := c.trip_group_id,
                      driver_id := c.driver_id, week_start_date := w,
                      assigned_by := some u }) := rfl

theorem assignLoop_driver_invariant (avail : List Driver) (mrh : Nat)
    (pick : Nat → Nat) (A : List Nat) :
    ∀ (gs : List TripGroup) (st : AssignState),
    st.assigned_driver_ids = (st.created.map (fun c => c.driver_id)).reverse ++ A →
    (st.created.map (fun c => c.driver_id)).Nodup →
    (∀ x ∈ st.created.map (fun c => c.driver_id), x ∉ A) →
    ((assignLoop avail mrh pick gs st).assigned_driver_ids
        = (((assignLoop avail mrh pick gs st).created.map
            (fun c => c.driver_id)).reverse ++ A)
      ∧ ((assignLoop avail mrh pick gs st).created.map (fun c => c.driver_id)).Nodup
      ∧ (∀ x ∈ (assignLoop avail mrh pick gs st).created.map (fun c => c.driver_id),
          x ∉ A)) := by
  intro gs
  induction gs with
  | nil =>
    intro st h1 h2 h3
    exact ⟨h1, h2, h3⟩
  | cons g rest ih =>
    intro st h1 h2 h3
    simp only [assignLoop]
    by_cases he : (avail.filter (fun d =>
        !st.assigned_driver_ids.contains d.id && _check_rest_gap g mrh)) = []
    · rw [dif_pos he]
      exact ih _ h1 h2 h3
    · rw [dif_neg he]
      set eligible := avail.filter (fun d =>
        !st.assigned_driver_ids.contains d.id && _check_rest_gap g mrh) with heq
      set driver := eligible.getD (pick st.k % eligible.length) (eligible.head he)
        with hdr
      have hdm : driver ∈ eligible :=
        assignLoop_choice_mem eligible (pick st.k % eligible.length) he
      have hdnot : driver.id ∉ st.assigned_driver_ids := by
        rw [heq, List.mem_filter] at hdm
        have := hdm.2
        simp only [Bool.and_eq_true, Bool.not_eq_eq_eq_not, Bool.not_true] at this
        have hcontains := this.1
        simpa using hcontains
      rw [h1] at hdnot
      have hnotc : driver.id ∉ (st.created.map (fun c => c.driver_id)) := by
        intro hmem
        exact hdnot (List.mem_append.mpr (Or.inl (List.mem_reverse.mpr hmem)))
      have hnotA : driver.id ∉ A := by
        intro hmem
        exact hdnot (List.mem_append.mpr (Or.inr hmem))
      apply ih
      · simp only [List.map_append, List.map_cons, List.map_nil,
          List.reverse_append, List.reverse_cons, List.reverse_nil,
          List.nil_append, List.cons_append, List.append_assoc]
        rw [h1]
      · simp only [List.map_append, List.map_cons, List.map_nil]
        rw [List.nodup_append]
        exact ⟨h2, List.nodup_singleton _, by
          intro x hx hy
          simp only [List.mem_singleton] at hy
          subst hy
          exact hnotc hx⟩
      · intro x hx
        simp only [List.map_append, List.map_cons, List.map_nil,
          List.mem_append, List.mem_singleton] at hx
        rcases hx with hx | hx
        · exact h3 x hx
        · subst hx
          exact hnotA

theorem assignLoop_group_invariant (avail : List Driver) (mrh : Nat)
    (pick : Nat → Nat) :
    ∀ (gs : List TripGroup) (st : AssignState),
    (gs.map (fun g => g.id)).Nodup →
    (st.created.map (fun c => c.trip_group_id)).Nodup →
    (∀ x ∈ st.created.map (fun c => c.trip_group_id), x ∉ gs.map (fun g => g.id)) →
    (((assignLoop avail mrh pick gs st).created.map (fun c => c.trip_group_id)).Nodup
      ∧ (∀ x ∈ (assignLoop avail mrh pick gs st).created.map (fun c => c.trip_group_id),
          x ∈ st.created.map (fun c => c.trip_group_id) ∨ x ∈ gs.map (fun g => g.id))) := by
  intro gs
  induction gs with
  | nil =>
    intro st _ h2 _
    exact ⟨h2, fun x hx => Or.inl hx⟩
  | cons g rest ih =>
    intro st h1 h2 h3
    simp only [List.map_cons, List.nodup_cons] at h1
    simp only [assignLoop]
    by_cases he : (avail.filter (fun d =>
        !st.assigned_driver_ids.contains d.id && _check_rest_gap g mrh)) = []
    · rw [dif_pos he]
      have h3' : ∀ x ∈ st.created.map (fun c => c.trip_group_id),
          x ∉ rest.map (fun g => g.id) := by
        intro x hx hr
        exact h3 x hx (by simp only [List.map_cons, List.mem_cons]; exact Or.inr hr)
      obtain ⟨hn, hm⟩ := ih
        { assigned_driver_ids := st.assigned_driver_ids,
          created := st.created,
          unassigned := st.unassigned
            ++ [{ trip_group_id := g.id, name := g.name,
                  reason := if avail.isEmpty then
                      "All drivers are already assigned or unavailable"
                    else "Remaining drivers do not meet rest gap requirements" }],
          k := st.k } h1.2 h2 h3'
      refine ⟨hn, fun x hx => ?_⟩
      rcases hm x hx with hx2 | hx2
      · exact Or.inl hx2
      · exact Or.inr (by simp only [List.map_cons, List.mem_cons]; exact Or.inr hx2)
    · rw [dif_neg he]
      set eligible := avail.filter (fun d =>
        !st.assigned_driver_ids.contains d.id && _check_rest_gap g mrh) with heq
      set driver := eligible.getD (pick st.k % eligible.length) (eligible.head he)
        with hdr
      have hgid : g.id ∉ st.created.map (fun c => c.trip_group_id) := by
        intro hmem
        exact h3 g.id hmem (by simp)
      have h2' : ((st.created
          ++ [({ trip_group_id := g.id, driver_id := driver.id } : CreatedAssignment)]).map
            (fun c => c.trip_group_id)).Nodup := by
        simp only [List.map_append, List.map_cons, List.map_nil]
        rw [List.nodup_append]
        refine ⟨h2, List.nodup_singleton _, ?_⟩
        intro x hx hy
        simp only [List.mem_singleton] at hy
        subst hy
        exact hgid hx
      have h3' : ∀ x ∈ ((st.created
          ++ [({ trip_group_id := g.id, driver_id := driver.id } : CreatedAssignment)]).map
            (fun c => c.trip_group_id)),
          x ∉ rest.map (fun g => g.id) := by
        intro x hx hr
        simp only [List.map_append, List.map_cons, List.map_nil, List.mem_append,
          List.mem_singleton] at hx
        rcases hx with hx | hx
        · exact h3 x hx (by simp only [List.map_cons, List.mem_cons]; exact Or.inr hr)
        · subst hx
          exact h1.1 hr
      obtain ⟨hn, hm⟩ := ih
        { assigned_driver_ids := driver.id :: st.assigned_driver_ids,
          created := st.created ++ [{ trip_group_id := g.id, driver_id := driver.id }],
          unassigned := st.unassigned, k := st.k + 1 } h1.2 h2' h3'
      refine ⟨hn, fun x hx => ?_⟩
      rcases hm x hx with hx2 | hx2
      · simp only [List.map_append, List.map_cons, List.map_nil, List.mem_append,
          List.mem_singleton] at hx2
        rcases hx2 with hx2 | hx2
        · exact Or.inl hx2
        · subst hx2
          exact Or.inr (by simp)
      · exact Or.inr (by simp only [List.map_cons, List.mem_cons]; exact Or.inr hx2)

theorem assignLoop_unassigned_reason (avail : List Driver) (mrh : Nat)
    (pick : Nat → Nat) :
    ∀ (gs : List TripGroup) (st : AssignState),
    (∀ e ∈ st.unassigned, e.reason = (if avail.isEmpty then
        "All drivers are already assigned or unavailable"
      else "Remaining drivers do not meet rest gap requirements")) →
    ∀ e ∈ (assignLoop avail mrh pick gs st).unassigned,
      e.reason = (if avail.isEmpty then
        "All drivers are already assigned or unavailable"
      else "Remaining drivers do not meet rest gap requirements") := by
  intro gs
  induction gs with
  | nil =>
    intro st h
    exact h
  | cons g rest ih =>
    intro st h
    simp only [assignLoop]
    by_cases he : (avail.filter (fun d =>
        !st.assigned_driver_ids.contains d.id && _check_rest_gap g mrh)) = []
    · rw [dif_pos he]
      apply ih
      intro e hx
      simp only [List.mem_append, List.mem_singleton] at hx
      rcases hx with hx | hx
      · exact h e hx
      · subst hx
        rfl
    · rw [dif_neg he]
      apply ih
      exact h

/-! ## Claims C4, C5, C7 on auto_assign -/

/-- C4: one auto_assign invocation never gives two created assignments
(live rows or previews) the same driver or the same trip group; and a
live run preserves the per week uniqueness of driver and of group over
the stored WeeklyDriverAssignment rows.  The hypotheses are the primary
key uniqueness of trip group ids and the two database uniqueness
constraints on the rows already stored for the week. -/
theorem C4_auto_assign_exclusivity (db : Db)
    (week_start user_id min_rest_hours : Nat) (dry_run : Bool)
    (pick : Nat → Nat)
    (hg : (db.trip_groups.map (fun g => g.id)).Nodup)
    (hwd : ((existingAssignments db week_start).map (fun a => a.driver_id)).Nodup)
    (hwg : ((existingAssignments db week_start).map (fun a => a.trip_group_id)).Nodup) :
    (((auto_assign db week_start user_id min_rest_hours dry_run pick).1.assignments.map
        (fun c => c.driver_id)).Nodup
      ∧ ((auto_assign db week_start user_id min_rest_hours dry_run pick).1.assignments.map
        (fun c => c.trip_group_id)).Nodup)
    ∧ (dry_run = false →
        ((existingAssignments
            (auto_assign db week_start user_id min_rest_hours dry_run pick).2
            week_start).map (fun a => a.driver_id)).Nodup
        ∧ ((existingAssignments
            (auto_assign db week_start user_id min_rest_hours dry_run pick).2
            week_start).map (fun a => a.trip_group_id)).Nodup) := by
  have hgroups : ((unassignedGroups db week_start).map (fun g => g.id)).Nodup := by
    have hsub : (unassignedGroups db week_start).Sublist db.trip_groups :=
      (List.filter_sublist _).trans (List.filter_sublist _)
    exact hg.sublist (hsub.map (fun g => g.id))
  obtain ⟨heqA, hndD, hnotA⟩ := assignLoop_driver_invariant
    (availableDrivers db week_start) min_rest_hours pick
    (alreadyAssignedDriverIds db week_start)
    (unassignedGroups db week_start)
    { assigned_driver_ids := alreadyAssignedDriverIds db week_start,
      created := [], unassigned := [], k := 0 }
    (by simp) (by simp) (by simp)
  obtain ⟨hndG, hmemG⟩ := assignLoop_group_invariant
    (availableDrivers db week_start) min_rest_hours pick
    (unassignedGroups db week_start)
    { assigned_driver_ids := alreadyAssignedDriverIds db week_start,
      created := [], unassigned := [], k := 0 }
    hgroups (by simp) (by simp)
  have hnotAlreadyG : ∀ x ∈ (assignLoop (availableDrivers db week_start)
        min_rest_hours pick (unassignedGroups db week_start)
        { assigned_driver_ids := alreadyAssignedDriverIds db week_start,
          created := [], unassigned := [], k := 0 }).created.map
        (fun c => c.trip_group_id),
      x ∉ (existingAssignments db week_start).map (fun a => a.trip_group_id) := by
    intro x hx
    rcases hmemG x hx with hx2 | hx2
    · simp at hx2
    · obtain ⟨g2, hg2, rfl⟩ := List.mem_map.mp hx2
      rw [unassignedGroups, List.mem_filter] at hg2
      have := hg2.2
      rw [alreadyAssignedGroupIds] at this
      simpa using this
  constructor
  · rw [auto_assign_assignments]
    exact ⟨hndD, hndG⟩
  · intro hdry
    subst hdry
    rw [existingAssignments, auto_assign_db_live_rows, List.filter_append]
    have hnew : ((assignLoop (availableDrivers db week_start) min_rest_hours pick
          (unassignedGroups db week_start)
          { assigned_driver_ids := alreadyAssignedDriverIds db week_start,
            created := [], unassigned := [], k := 0 }).created.map
        (fun c => ({ id := 0, trip_group_id := c.trip_group_id,
                     driver_id := c.driver_id, week_start_date := week_start,
                     assigned_by := some user_id } : WeeklyDriverAssignment))).filter
          (fun a => a.week_start_date == week_start)
        = (assignLoop (availableDrivers db week_start) min_rest_hours pick
            (unassignedGroups db week_start)
            { assigned_driver_ids := alreadyAssignedDriverIds db week_start,
              created := [], unassigned := [], k := 0 }).created.map
          (fun c => ({ id := 0, trip_group_id := c.trip_group_id,
                       driver_id := c.driver_id, week_start_date := week_start,
                       assigned_by := some user_id } : WeeklyDriverAssignment)) := by
      apply List.filter_eq_self.mpr
      intro a ha
      obtain ⟨c, hc, rfl⟩ := List.mem_map.mp ha
      simp
    rw [hnew]
    constructor
    · rw [List.map_append, List.nodup_append, List.map_map]
      refine ⟨hwd, ?_, ?_⟩
      · simpa using hndD
      · intro a ha hb
        have hb2 : a ∈ (assignLoop (availableDrivers db week_start)
            min_rest_hours pick (unassignedGroups db week_start)
            { assigned_driver_ids := alreadyAssignedDriverIds db week_start,
              created := [], unassigned := [], k := 0 }).created.map
            (fun c => c.driver_id) := by
          simpa using hb
        exact hnotA a hb2 (by rw [alreadyAssignedDriverIds]; exact ha)
    · rw [List.map_append, List.nodup_append, List.map_map]
      refine ⟨hwg, ?_, ?_⟩
      · simpa using hndG
      · intro a ha hb
        have hb2 : a ∈ (assignLoop (availableDrivers db week_start)
            min_rest_hours pick (unassignedGroups db week_start)
            { assigned_driver_ids := alreadyAssignedDriverIds db week_start,
              created := [], unassigned := [], k := 0 }).created.map
            (fun c => c.trip_group_id) := by
          simpa using hb
        exact hnotAlreadyG a hb2 ha

/-- Witness for C4 on a concrete store with two groups and two working
drivers, live run. -/
theorem C4_witness :
    ((exDbAuto.trip_groups.map (fun g => g.id)).Nodup
      ∧ ((existingAssignments exDbAuto 100).map (fun a => a.driver_id)).Nodup
      ∧ ((existingAssignments exDbAuto 100).map (fun a => a.trip_group_id)).Nodup)
    ∧ (((auto_assign exDbAuto 100 1 12 false (fun _ => 0)).1.assignments.map
        (fun c => c.driver_id)).Nodup
      ∧ ((auto_assign exDbAuto 100 1 12 false (fun _ => 0)).1.assignments.map
        (fun c => c.trip_group_id)).Nodup) :=
  ⟨⟨by decide, by decide, by decide⟩,
    (C4_auto_assign_exclusivity exDbAuto 100 1 12 false (fun _ => 0)
      (by decide) (by decide) (by decide)).1⟩

/-- C5: a dry run of auto_assign returns the store unchanged: no
WeeklyDriverAssignment row is added, deleted or modified, so every later
read (conflict checks, availability queries) sees the same state. -/
theorem C5_dry_run_leaves_store_unchanged (db : Db)
    (week_start user_id min_rest_hours : Nat) (pick : Nat → Nat) :
    (auto_assign db week_start user_id min_rest_hours true pick).2 = db := rfl

/-- Counterexample to C7: with an empty candidate pool the recorded
reason is the string "All drivers are already assigned or unavailable",
not "no available drivers" as the claim states. -/
theorem C7_counterexample :
    ((auto_assign exDbNoDrivers 100 1 12 false (fun _ => 0)).1.unassigned.map
        (fun e => e.reason)
      = ["All drivers are already assigned or unavailable"])
    ∧ (availableDrivers exDbNoDrivers 100).isEmpty = true := by
  constructor <;> rfl

/-- C7 amended: a group with an empty eligible set is recorded under
unassigned with reason "All drivers are already assigned or unavailable"
exactly when the candidate pool was empty before the loop, and
"Remaining drivers do not meet rest gap requirements" otherwise; the
initial reason string "No available drivers" of the code is dead. -/
theorem C7_unassigned_reason_characterization (db : Db)
    (week_start user_id min_rest_hours : Nat) (dry_run : Bool)
    (pick : Nat → Nat) :
    ∀ e ∈ (auto_assign db week_start user_id min_rest_hours dry_run pick).1.unassigned,
      e.reason = (if (availableDrivers db week_start).isEmpty then
          "All drivers are already assigned or unavailable"
        else "Remaining drivers do not meet rest gap requirements") := by
  rw [auto_assign_unassigned]
  apply assignLoop_unassigned_reason
  intro e he
  simp at he

/-- Witness for C7 on the concrete store with no drivers. -/
theorem C7_witness :
    (exNoDriverPreview
      ∈ (auto_assign exDbNoDrivers 100 1 12 false (fun _ => 0)).1.unassigned)
    ∧ exNoDriverPreview.reason
      = (if (availableDrivers exDbNoDrivers 100).isEmpty then
          "All drivers are already assigned or unavailable"
        else "Remaining drivers do not meet rest gap requirements") :=
  ⟨by decide,
    C7_unassigned_reason_characterization exDbNoDrivers 100 1 12 false (fun _ => 0)
      _ (by decide)⟩

/-! ## Claim C10 on assign_trip -/

/-- C10: when a tanker is requested, assign_trip raises (returns an
error, producing no mutated store) as soon as validation reports errors
or the conflict check is non empty; only when validation passes with
zero conflicts does it return a store in which the trip carries the
requested tanker and status SCHEDULED.  The hypotheses pin down the
lookups of the endpoint: the trip and its unlocked schedule, the
requested tanker and the customer of the trip all exist. -/
theorem C10_assign_trip_atomicity (db : Db) (trip_id : Nat)
    (a : TripAssignment) (tkid : Nat) (hta : a.tanker_id = some tkid)
    (trip : Trip)
    (htrip : db.trips.find? (fun t => t.id == trip_id) = some trip)
    (sched : DailySchedule)
    (hs : db.daily_schedules.find? (fun s => s.id == trip.daily_schedule_id)
      = some sched)
    (hlock : sched.is_locked = false)
    (tanker : Tanker)
    (htank : db.tankers.find? (fun k => k.id == tkid) = some tanker)
    (customer : Customer)
    (hcust : db.customers.find? (fun c => c.id == trip.customer_id)
      = some customer) :
    ((validate_tanker_assignment trip tanker customer).is_valid = false
        ∨ check_trip_conflicts db tkid sched.schedule_date trip.start_time
            trip.end_time (some trip_id) ≠ [] →
      ∃ msg, assign_trip db trip_id a = Except.error msg)
    ∧ ((validate_tanker_assignment trip tanker customer).is_valid = true
        ∧ check_trip_conflicts db tkid sched.schedule_date trip.start_time
            trip.end_time (some trip_id) = [] →
      ∃ db2, assign_trip db trip_id a = Except.ok db2
        ∧ ∀ t ∈ db2.trips, t.id = trip_id →
            t.tanker_id = some tkid ∧ t.status = TripStatus.scheduled) := by
  unfold assign_trip
  simp only [htrip, hs, hta, htank, hcust, hlock, Bool.false_eq_true, if_false]
  constructor
  · intro h
    by_cases hv : (validate_tanker_assignment trip tanker customer).is_valid = true
    · have hconf : check_trip_conflicts db tkid sched.schedule_date trip.start_time
          trip.end_time (some trip_id) ≠ [] := by
        rcases h with hbad | hconf
        · rw [hv] at hbad
          cases hbad
        · exact hconf
      exact ⟨"Tanker has conflicting trips", by simp [hv, hconf]⟩
    · exact ⟨"validation errors", by simp [hv]⟩
  · rintro ⟨hok, hnoc⟩
    simp only [hok, hnoc, Bool.not_true, Bool.false_eq_true, if_false, ne_eq,
      not_true_eq_false]
    refine ⟨_, rfl, ?_⟩
    intro t ht htid
    unfold updateTrip at ht
    simp only [List.mem_map] at ht
    obtain ⟨t0, ht0, rfl⟩ := ht
    by_cases h0 : (t0.id == trip_id) = true
    · rw [if_pos h0]
      cases had : a.driver_id <;> simp [had]
    · rw [if_neg h0] at htid ⊢
      exact absurd htid (by simpa using h0)

/-- Witness for C10: on the concrete store the requested compatible
tanker is attached and the trip becomes SCHEDULED. -/
theorem C10_witness :
    (exDbAssign.trips.find? (fun t => t.id == 1) = some exTrip
      ∧ (validate_tanker_assignment exTrip exTanker exCustomer).is_valid = true
      ∧ check_trip_conflicts exDbAssign 7 100 exTrip.start_time exTrip.end_time
          (some 1) = [])
    ∧ (∃ db2, assign_trip exDbAssign 1 { tanker_id := some 7, driver_id := none }
          = Except.ok db2
        ∧ ∀ t ∈ db2.trips, t.id = 1 →
            t.tanker_id = some 7 ∧ t.status = TripStatus.scheduled) :=
  ⟨⟨by decide, by decide, by decide⟩,
    (C10_assign_trip_atomicity exDbAssign 1 { tanker_id := some 7, driver_id := none }
        7 rfl exTrip (by decide)
        { id := 1, schedule_date := 100, is_locked := false } (by decide) rfl
        exTanker (by decide) exCustomer (by decide)).2
      ⟨by decide, by decide⟩⟩

end NFDispatch
